import Mathlib

/-!
# Verification of the mum_art import/reconciliation pipeline

Shallow embedding of the data-cleaning and sync code of the repository
(`src/cleaning/cleaner.py`, `src/sync/importer_smart.py`,
`src/sync/import_report.py`) together with proofs about the frozen claims.

Strings are modelled as `List Char` (`Str`); raw spreadsheet cells are
`Option Str` where `none` stands for a missing / NaN cell.  Python
truthiness of a string is emptiness; Python truthiness of an id is
non-zero.  Dates handled at the store level are modelled as `Int`
epoch days; dates produced by the cleaner are `PDate` records.
-/

abbrev Str := List Char

/-- Python whitespace characters (the set stripped by `str.strip()`). -/
def isPyWs (c : Char) : Bool :=
  c = ' ' ∨ c = '\t' ∨ c = '\n' ∨ c = '\r' ∨ c = '\x0b' ∨ c = '\x0c'

/-- Python `str.strip()`: drop whitespace from both ends. -/
def py_strip (s : Str) : Str :=
  ((s.dropWhile isPyWs).reverse.dropWhile isPyWs).reverse

/-- Python `str.lower()` (ASCII, which is all the source data uses). -/
def py_lower (s : Str) : Str := s.map Char.toLower

/-- Python `str.upper()` (ASCII). -/
def py_upper (s : Str) : Str := s.map Char.toUpper

/-- Python `str.capitalize()`: first character upper-cased, rest lower-cased. -/
def py_capitalize (s : Str) : Str :=
  match s with
  | [] => []
  | c :: r => Char.toUpper c :: r.map Char.toLower

/-- Python `str.title()` (ASCII): upper-case a letter that starts an
alphabetic run, lower-case the rest of the run. -/
def py_title_go (prevAlpha : Bool) : Str → Str
  | [] => []
  | c :: r =>
    if c.isAlpha then
      (if prevAlpha then Char.toLower c else Char.toUpper c) :: py_title_go true r
    else c :: py_title_go false r

def py_title (s : Str) : Str := py_title_go false s

/-- Python `str.split()` with no argument: split on whitespace runs,
dropping empty pieces. -/
def py_split_ws (s : Str) : List Str :=
  (s.foldr
    (fun c acc =>
      if isPyWs c then [] :: acc
      else match acc with
        | [] => [[c]]
        | w :: r => (c :: w) :: r)
    [[]]).filter (fun w => w ≠ [])

/-- Python `str.split(sep)` for a one-character separator: keeps empty pieces. -/
def py_split_on (sep : Char) (s : Str) : List Str :=
  s.foldr
    (fun c acc =>
      if c = sep then [] :: acc
      else match acc with
        | [] => [[c]]
        | w :: r => (c :: w) :: r)
    [[]]

/-- `sep.join(parts)` for a one-character separator. -/
def py_join_char (sep : Char) : List Str → Str
  | [] => []
  | [w] => w
  | w :: r => w ++ sep :: py_join_char sep r

/-- `' '.join(parts)`. -/
def py_join_sp : List Str → Str := py_join_char ' '

/-- Python substring test `pat in s`. -/
def str_has (pat : Str) : Str → Bool
  | [] => pat.isEmpty
  | c :: r => pat.isPrefixOf (c :: r) || str_has pat r

/-- Python truthiness of an optional string cell (`None`, NaN and `""` are falsy). -/
def pyTruthyOS (o : Option Str) : Bool :=
  match o with
  | none => false
  | some s => !s.isEmpty

/-- Python falsiness of an optional integer id (`None` and `0` are falsy). -/
def pyIdFalsy (o : Option Nat) : Bool :=
  match o with
  | none => true
  | some k => k == 0

/-- Association-list lookup used to model Python `dict.get`. -/
def lookupStr {α : Type} (k : Str) (m : List (Str × α)) : Option α :=
  (m.find? (fun e => e.1 == k)).map (fun e => e.2)

/-- `AirtableDataCleaner._normalize_lookup_key`: lowercase, then remove
dashes, underscores, spaces and periods. -/
def normalize_lookup_key (s : Str) : Str :=
  (py_lower s).filter (fun c => ¬(c = '-' ∨ c = '_' ∨ c = ' ' ∨ c = '.'))

/-- `AirtableDataCleaner.PRINT_NAMES`: canonical print names, mapping a
normalized raw variant key to the (short_name, full_name) pair. -/
def PRINT_NAMES : List (Str × Str × Str) := [
  ("bembridge".toList, ("Bemb".toList, "Bembridge".toList)),
  ("bemlbsl".toList, ("Bemb LS".toList, "Bembridge Lifeboat Station".toList)),
  ("lifeboatstation".toList, ("Bemb LS".toList, "Bembridge Lifeboat Station".toList)),
  ("eastcowes".toList, ("E Cowes".toList, "East Cowes".toList)),
  ("westcowes".toList, ("W Cowes".toList, "West Cowes".toList)),
  ("cowesraceday".toList, ("Cowes RD".toList, "Cowes Race Day".toList)),
  ("hurst".toList, ("Hurst".toList, "Hurst".toList)),
  ("needles".toList, ("Needles".toList, "Needles".toList)),
  ("needleslighthouse".toList, ("Needles LH".toList, "Needles Lighthouse".toList)),
  ("nomanfort".toList, ("NMF".toList, "No Man\x27s Fort".toList)),
  ("nomansfort".toList, ("NMF".toList, "No Man\x27s Fort".toList)),
  ("osborne".toList, ("Osborne".toList, "Osborne".toList)),
  ("priory".toList, ("Priory".toList, "Priory".toList)),
  ("quarr".toList, ("Quarr".toList, "Quarr".toList)),
  ("quayrocks".toList, ("Quay Rks".toList, "Quay Rocks".toList)),
  ("quayrockslandscape".toList, ("Quay Rks L".toList, "Quay Rocks Landscape".toList)),
  ("roundtheisland".toList, ("RTI".toList, "Round the Island".toList)),
  ("stcatherines".toList, ("St Cath".toList, "St Catherine\x27s".toList)),
  ("seagrove".toList, ("Seagrove".toList, "Seagrove".toList)),
  ("seaview".toList, ("Seaview".toList, "Seaview".toList)),
  ("seagv2l".toList, ("Seaview V2L".toList, "Seaview V2 Large".toList)),
  ("yarmouth".toList, ("Yarm".toList, "Yarmouth".toList)),
  ("yarmouthpier".toList, ("Yarm Pier".toList, "Yarmouth Pier".toList)),
  ("lymington".toList, ("Lym".toList, "Lymington".toList)),
  ("nerthek".toList, ("Nerthek".toList, "Nerthek".toList)),
  ("royalyachtsquadron".toList, ("RYS".toList, "Royal Yacht Squadron".toList)),
  ("rys".toList, ("RYS".toList, "Royal Yacht Squadron".toList)),
  ("etchells".toList, ("Etchells".toList, "Etchells".toList)),
  ("contessa32".toList, ("C32".toList, "Contessa 32".toList)),
  ("scooter".toList, ("Scooter".toList, "Scooter".toList)),
  ("sb20".toList, ("SB20".toList, "SB20".toList)),
  ("scows".toList, ("Scows".toList, "Scows".toList)),
  ("regatta".toList, ("Regatta".toList, "Regatta".toList)),
  ("classics".toList, ("Classics".toList, "Classics".toList)),
  ("classracinglym".toList, ("Class Lym".toList, "Class Racing Lymington".toList)),
  ("ducie".toList, ("Ducie".toList, "Ducie".toList)),
  ("corby".toList, ("Corby".toList, "Corby".toList)),
  ("galatea".toList, ("Galatea".toList, "Galatea".toList)),
  ("beatrice".toList, ("Beatrice".toList, "Beatrice".toList)),
  ("otto".toList, ("Otto".toList, "Otto".toList)),
  ("brambles".toList, ("Brambles".toList, "Brambles".toList)),
  ("amermaids".toList, ("Mermaids".toList, "Mermaids".toList)),
  ("a.mermaids".toList, ("Mermaids".toList, "Mermaids".toList)),
  ("mermaids".toList, ("Mermaids".toList, "Mermaids".toList)),
  ("svycmermaids".toList, ("SVYC Merm".toList, "SVYC Mermaids".toList)),
  ("bsvycm".toList, ("B SVYCM".toList, "B SVYC Mermaids".toList)),
  ("puffin".toList, ("Puffin".toList, "Puffin".toList)),
  ("wrongflagraceday".toList, ("Wrong Flag".toList, "Wrong Flag Race Day".toList)),
  ("miscellaneous".toList, ("Misc".toList, "Miscellaneous".toList))]

/-- Lookup in the canonical print-name table. -/
def lookup_print (k : Str) : Option (Str × Str) := lookupStr k PRINT_NAMES

/-- Words kept all-caps by `_apply_title_casing`. -/
def uppercase_words : List Str :=
  ["RYS".toList, "IOW".toList, "UK".toList, "V2".toList, "V2L".toList,
   "SVYC".toList, "SB20".toList]

/-- Minor words kept lowercase (except as first word) by `_apply_title_casing`. -/
def lowercase_words : List Str :=
  ["and".toList, "the".toList, "of".toList, "at".toList, "in".toList, "on".toList]

/-- `word.strip('.,;:')`. -/
def strip_punct (w : Str) : Str :=
  let p := fun c => c = '.' ∨ c = ',' ∨ c = ';' ∨ c = ':'
  ((w.dropWhile p).reverse.dropWhile p).reverse

/-- One word of `AirtableDataCleaner._apply_title_casing`; `first` is true
for the word at index 0. -/
def title_word (first : Bool) (w : Str) : Str :=
  let clean_word := strip_punct w
  if py_upper clean_word ∈ uppercase_words then py_upper clean_word
  else if ¬first ∧ py_lower clean_word ∈ lowercase_words then py_lower clean_word
  else if '\x27' ∈ clean_word then
    py_join_char '\x27' ((py_split_on '\x27' clean_word).map py_capitalize)
  else py_capitalize clean_word

def title_words (first : Bool) : List Str → List Str
  | [] => []
  | w :: r => title_word first w :: title_words false r

/-- `AirtableDataCleaner._apply_title_casing`. -/
def apply_title_casing (name : Str) : Str :=
  py_join_sp (title_words true (py_split_ws name))

/-- `''.join(w[0].upper() for w in words if w)`. -/
def word_initials : List Str → Str
  | [] => []
  | [] :: r => word_initials r
  | (c :: _) :: r => Char.toUpper c :: word_initials r

/-- Guard strings treated like an empty value by `get_print_names`. -/
def empty_like_gp : List Str := ["nan".toList, "none".toList, []]

/-- `AirtableDataCleaner.get_print_names`: canonical (short, full) pair,
or `(none, none)` for invalid input. -/
def get_print_names (name : Option Str) : Option Str × Option Str :=
  match name with
  | none => (none, none)
  | some s =>
    if s.isEmpty ∨ py_lower s ∈ empty_like_gp then (none, none)
    else
      let clean_name := py_strip s
      match lookup_print (normalize_lookup_key clean_name) with
      | some p => (some p.1, some p.2)
      | none =>
        let full_name := apply_title_casing clean_name
        if full_name.isEmpty then (none, none)
        else
          let words := py_split_ws full_name
          if words.length = 1 then (some full_name, some full_name)
          else (some (word_initials words), some full_name)

/-- `AirtableDataCleaner.standardize_print_name`: the full name only. -/
def standardize_print_name (name : Option Str) : Option Str :=
  (get_print_names name).2

/-- A calendar date as produced by `datetime.strptime(...).date()`. -/
structure PDate where
  year : Nat
  month : Nat
  day : Nat
deriving DecidableEq, Repr

def is_leap (y : Nat) : Bool := y % 4 = 0 ∧ (y % 100 ≠ 0 ∨ y % 400 = 0)

def days_in_month (y m : Nat) : Nat :=
  if m = 2 then (if is_leap y then 29 else 28)
  else if m = 4 ∨ m = 6 ∨ m = 9 ∨ m = 11 then 30
  else 31

/-- `datetime` constructor validation (year 1..9999, month 1..12, valid day). -/
def mk_date (y m d : Nat) : Option PDate :=
  if 1 ≤ y ∧ y ≤ 9999 ∧ 1 ≤ m ∧ m ≤ 12 ∧ 1 ≤ d ∧ d ≤ days_in_month y m then
    some ⟨y, m, d⟩
  else none

def digit_val (c : Char) : Nat := c.toNat - 48

def nat_of_digits (ds : Str) : Nat := ds.foldl (fun a c => 10 * a + digit_val c) 0

/-- strptime `%m` / `%d`: one or two digits, greedy. -/
def grab12 : Str → Option (Nat × Str)
  | a :: b :: r =>
    if a.isDigit ∧ b.isDigit then some (10 * digit_val a + digit_val b, r)
    else if a.isDigit then some (digit_val a, b :: r)
    else none
  | [a] => if a.isDigit then some (digit_val a, []) else none
  | [] => none

/-- strptime `%Y`: exactly four digits. -/
def grab4 : Str → Option (Nat × Str)
  | a :: b :: c :: d :: r =>
    if a.isDigit ∧ b.isDigit ∧ c.isDigit ∧ d.isDigit then
      some (nat_of_digits [a, b, c, d], r)
    else none
  | _ => none

/-- A literal character in a strptime format. -/
def lit (c : Char) : Str → Option Str
  | a :: r => if a = c then some r else none
  | [] => none

/-- Whitespace in a strptime format matches one or more whitespace characters. -/
def ws1 : Str → Option Str
  | a :: r => if isPyWs a then some (r.dropWhile isPyWs) else none
  | [] => none

def month_names_full : List (Str × Nat) :=
  [("january".toList, 1), ("february".toList, 2), ("march".toList, 3),
   ("april".toList, 4), ("may".toList, 5), ("june".toList, 6),
   ("july".toList, 7), ("august".toList, 8), ("september".toList, 9),
   ("october".toList, 10), ("november".toList, 11), ("december".toList, 12)]

def month_names_abbr : List (Str × Nat) :=
  [("jan".toList, 1), ("feb".toList, 2), ("mar".toList, 3), ("apr".toList, 4),
   ("may".toList, 5), ("jun".toList, 6), ("jul".toList, 7), ("aug".toList, 8),
   ("sep".toList, 9), ("oct".toList, 10), ("nov".toList, 11), ("dec".toList, 12)]

/-- strptime `%B` / `%b`: case-insensitive month-name match (first alternative wins). -/
def grab_month (names : List (Str × Nat)) : Str → Option (Nat × Str)
  | s =>
    (names.find? (fun nm => py_lower (s.take nm.1.length) == nm.1)).map
      (fun nm => (nm.2, s.drop nm.1.length))

/-- Format `%m/%d/%Y`. -/
def fmt_mdy (s : Str) : Option PDate := do
  let (m, r) ← grab12 s
  let r ← lit '/' r
  let (d, r) ← grab12 r
  let r ← lit '/' r
  let (y, r) ← grab4 r
  if r.isEmpty then mk_date y m d else none

/-- Format `%d/%m/%Y`. -/
def fmt_dmy (s : Str) : Option PDate := do
  let (d, r) ← grab12 s
  let r ← lit '/' r
  let (m, r) ← grab12 r
  let r ← lit '/' r
  let (y, r) ← grab4 r
  if r.isEmpty then mk_date y m d else none

/-- Format `%Y-%m-%d`. -/
def fmt_ymd (s : Str) : Option PDate := do
  let (y, r) ← grab4 s
  let r ← lit '-' r
  let (m, r) ← grab12 r
  let r ← lit '-' r
  let (d, r) ← grab12 r
  if r.isEmpty then mk_date y m d else none

/-- Formats `%B %d, %Y` (full month name) and `%b %d, %Y` (abbreviated). -/
def fmt_month_name (names : List (Str × Nat)) (s : Str) : Option PDate := do
  let (m, r) ← grab_month names s
  let r ← ws1 r
  let (d, r) ← grab12 r
  let r ← lit ',' r
  let r ← ws1 r
  let (y, r) ← grab4 r
  if r.isEmpty then mk_date y m d else none

/-- `'1920' in s`. -/
def has_1920 (s : Str) : Bool := str_has "1920".toList s

/-- `s.replace('1920', '2020')`: non-overlapping, left to right. -/
def fix_1920 : Str → Str
  | '1' :: '9' :: '2' :: '0' :: rest => '2' :: '0' :: '2' :: '0' :: fix_1920 rest
  | c :: rest => c :: fix_1920 rest
  | [] => []

/-- Guard strings treated like an empty value by `parse_date` and the
currency/percentage/integer cleaners. -/
def empty_like_err : List Str := ["nan".toList, "none".toList, [], "#error!".toList]

/-- `AirtableDataCleaner.parse_date`: rewrite the `1920` typo, then try the
five formats in order. -/
def parse_date (value : Option Str) : Option PDate :=
  match value with
  | none => none
  | some s =>
    if s.isEmpty ∨ py_lower s ∈ empty_like_err then none
    else
      let date_str := py_strip s
      let date_str := if has_1920 date_str then fix_1920 date_str else date_str
      (fmt_mdy date_str).orElse fun _ =>
      (fmt_dmy date_str).orElse fun _ =>
      (fmt_ymd date_str).orElse fun _ =>
      (fmt_month_name month_names_full date_str).orElse fun _ =>
      fmt_month_name month_names_abbr date_str

/-- `AirtableDataCleaner.clean_text`. -/
def clean_text (value : Option Str) : Option Str :=
  match value with
  | none => none
  | some s =>
    if s.isEmpty ∨ py_lower s ∈ ["nan".toList, "none".toList, "#error!".toList] then none
    else some (py_strip s)

/-- `int(s)` for a decimal string: optional surrounding whitespace, optional
sign, digits (`None` on anything else). -/
def py_int_of_str (s : Str) : Option Int :=
  let t := py_strip s
  match t with
  | '-' :: ds => if ds ≠ [] ∧ ds.all Char.isDigit then some (-(nat_of_digits ds : Int)) else none
  | '+' :: ds => if ds ≠ [] ∧ ds.all Char.isDigit then some ((nat_of_digits ds : Int)) else none
  | ds => if ds ≠ [] ∧ ds.all Char.isDigit then some ((nat_of_digits ds : Int)) else none

/-- `int(float(s))` for a plain decimal literal `[sign]digits.digits`:
truncation toward zero discards the fractional part. -/
def py_int_of_float_str (s : Str) : Option Int :=
  let t := py_strip s
  let core := fun (u : Str) (sign : Int) =>
    let ip := u.takeWhile Char.isDigit
    match u.drop ip.length with
    | '.' :: fp =>
      if (ip ≠ [] ∨ fp ≠ []) ∧ fp.all Char.isDigit then
        some (sign * (nat_of_digits ip : Int))
      else none
    | _ => none
  match t with
  | '-' :: u => core u (-1)
  | '+' :: u => core u 1
  | u => core u 1

/-- `AirtableDataCleaner.clean_integer`. -/
def clean_integer (value : Option Str) : Option Int :=
  match value with
  | none => none
  | some s =>
    if s.isEmpty ∨ py_lower s ∈ empty_like_err then none
    else if '.' ∈ s then py_int_of_float_str s
    else py_int_of_str s

/-- Whether a string is accepted by `Decimal(...)`: optional surrounding
whitespace, optional sign, digits with an optional point, optional exponent. -/
def is_decimal_literal (s : Str) : Bool :=
  let t := py_strip s
  let t := match t with
    | '-' :: u => u
    | '+' :: u => u
    | u => u
  let ip := t.takeWhile Char.isDigit
  let t2 := t.drop ip.length
  let (fp, t3) := match t2 with
    | '.' :: u => (u.takeWhile Char.isDigit, (u.dropWhile Char.isDigit : Str))
    | u => ([], u)
  if ip = [] ∧ fp = [] then false
  else match t3 with
    | [] => true
    | e :: u =>
      if e = 'e' ∨ e = 'E' then
        let u := match u with
          | '-' :: v => v
          | '+' :: v => v
          | v => v
        u ≠ [] ∧ u.all Char.isDigit
      else false

/-- `AirtableDataCleaner.clean_currency`: strip currency symbols and commas,
then parse a Decimal (the Decimal value is represented by its literal). -/
def clean_currency (value : Option Str) : Option Str :=
  match value with
  | none => none
  | some s =>
    if s.isEmpty ∨ py_lower s ∈ empty_like_err then none
    else
      let clean_val := s.filter (fun c => ¬(c = '£' ∨ c = '$' ∨ c = '€' ∨ c = ','))
      if is_decimal_literal clean_val then some clean_val else none

/-- `AirtableDataCleaner.clean_percentage`. -/
def clean_percentage (value : Option Str) : Option Str :=
  match value with
  | none => none
  | some s =>
    if s.isEmpty ∨ py_lower s ∈ empty_like_err then none
    else
      let clean_val := py_strip (s.filter (fun c => c ≠ '%'))
      if is_decimal_literal clean_val then some clean_val else none

/-- `AirtableDataCleaner.clean_boolean`. -/
def clean_boolean (value : Option Str) : Bool :=
  match value with
  | none => false
  | some s =>
    if s.isEmpty then false
    else py_strip (py_lower s) ∈
      ["checked".toList, "true".toList, "yes".toList, "1".toList]

/-- `AirtableDataCleaner.normalize_size`. -/
def normalize_size (value : Option Str) : Str :=
  match value with
  | none => "Small".toList
  | some s =>
    if s.isEmpty ∨ py_lower s ∈ ["nan".toList, "none".toList, [], "unknown".toList] then
      "Small".toList
    else
      let size_str := py_lower (py_strip s)
      if str_has "extra".toList size_str ∧ str_has "large".toList size_str then
        "Extra Large".toList
      else if str_has "large".toList size_str then "Large".toList
      else "Small".toList

/-- `AirtableDataCleaner.normalize_frame_type`.  Note: a missing or blank
cell yields `none`, not the `Framed` default. -/
def normalize_frame_type (frame_type : Option Str) : Option Str :=
  match frame_type with
  | none => none
  | some s =>
    if s.isEmpty ∨ py_lower s ∈ empty_like_gp then none
    else
      let frame_str := py_lower (py_strip s)
      if frame_str ∈ ["ikea".toList, "b&q".toList, "framed".toList, "frame".toList] then
        some "Framed".toList
      else if frame_str ∈ ["tube".toList, "tube only".toList, "tubed".toList] then
        some "Tube only".toList
      else if frame_str ∈ ["mounted".toList, "mount".toList, "unmounted".toList] then
        some "Mounted".toList
      else some "Framed".toList

/-- `AirtableDataCleaner.standardize_distributor_name`. -/
def distributor_mapping : List (Str × Str) :=
  [("kendalls".toList, "Kendalls".toList), ("kendall".toList, "Kendalls".toList),
   ("seaview gallery".toList, "Seaview Gallery".toList),
   ("bramble and berry".toList, "Bramble and Berry".toList),
   ("green buoy".toList, "Green Buoy".toList),
   ("tapnell farm".toList, "Tapnell Farm".toList),
   ("direct".toList, "Direct".toList), ("unknown".toList, "Unknown".toList),
   ("perera".toList, "Perera".toList), ("framers".toList, "Framers".toList)]

def standardize_distributor_name (name : Option Str) : Option Str :=
  match name with
  | none => none
  | some s =>
    if s.isEmpty ∨ py_lower s ∈ empty_like_gp then none
    else
      let clean_name := py_strip s
      if py_lower clean_name ∈ ["checked".toList] then none
      else
        match lookupStr (py_lower clean_name) distributor_mapping with
        | some v => some v
        | none => some (py_title clean_name)

/-- Tail of the edition pattern `\s*-\s*(-?\d+)$`, anchored on both sides.
The leading `\s*` cannot absorb the literal dash, so the match is the
greedy whitespace run followed by the dash, whitespace, and the signed
digit group running to the end of the string. -/
def match_tail (r : Str) : Option Int :=
  match r.dropWhile isPyWs with
  | '-' :: r1 =>
    (match r1.dropWhile isPyWs with
     | '-' :: ds =>
       if ds ≠ [] ∧ ds.all Char.isDigit then some (-(nat_of_digits ds : Int)) else none
     | ds =>
       if ds ≠ [] ∧ ds.all Char.isDigit then some ((nat_of_digits ds : Int)) else none)
  | _ => none

/-- `re.match(r'^(.+?)\s*-\s*(-?\d+)$', s)`: the lazy group grows one
character at a time (never across a newline, which `.` does not match),
taking the first split whose remainder matches the anchored tail. -/
def match_edition_go (acc : Str) : Str → Option (Str × Int)
  | [] => none
  | c :: rest =>
    if c = '\n' then none
    else
      match match_tail rest with
      | some k => some (acc ++ [c], k)
      | none => match_edition_go (acc ++ [c]) rest

def match_edition_pattern (s : Str) : Option (Str × Int) := match_edition_go [] s

/-- `AirtableDataCleaner.extract_edition_info`. -/
def extract_edition_info (edition_name : Str) : Option Str × Option Int :=
  if edition_name.isEmpty then (none, none)
  else
    match match_edition_pattern (py_strip edition_name) with
    | some g => (standardize_print_name (some g.1), some g.2)
    | none => (standardize_print_name (some edition_name), none)

/-- `sync.import_report.ImportReport`.  The per-key counters of the source
are modelled as append-only logs (a count is the number of occurrences in
the log); the keyed transformation maps keep the source's
first-record-wins insertion rule. -/
structure Report where
  print_name_transformations : List (Str × Str)
  distributor_name_transformations : List (Str × Str)
  size_normalizations : List (Str × Str)
  frame_type_normalizations : List (Str × Str)
  date_corrections : List (Str × Str × Str)
  duplicates_skipped : List Str
  editions_missing_print : List (Option Str × Str)
  editions_missing_distributor : List (Option Str)
  defaults_applied : List Str
  duplicate_prints_skipped : List Str
deriving DecidableEq

def Report.empty : Report := ⟨[], [], [], [], [], [], [], [], [], []⟩

/-- `ImportReport.record_size_normalization`. -/
def record_size_normalization (rep : Report) (original : Option Str) (normalized : Str) :
    Report :=
  if pyTruthyOS original then
    { rep with size_normalizations :=
        rep.size_normalizations ++ [(py_strip (original.getD []), normalized)] }
  else rep

/-- `ImportReport.record_frame_type_normalization`. -/
def record_frame_type_normalization (rep : Report) (original : Option Str)
    (normalized : Str) : Report :=
  let orig_key := if pyTruthyOS original then py_strip (original.getD []) else "(empty)".toList
  { rep with frame_type_normalizations :=
      rep.frame_type_normalizations ++ [(orig_key, normalized)] }

/-- `ImportReport.record_date_correction` (defined by the source but,
as the proofs below show, never invoked by the pipeline). -/
def record_date_correction (rep : Report) (original corrected field_nm : Str) : Report :=
  { rep with date_corrections := rep.date_corrections ++ [(original, corrected, field_nm)] }

/-- `ImportReport.record_distributor_name_transform`. -/
def record_distributor_name_transform (rep : Report) (original standardized : Str) :
    Report :=
  if original ≠ [] ∧ standardized ≠ [] ∧ py_strip original ≠ standardized ∧
      lookupStr (py_strip original) rep.distributor_name_transformations = none then
    { rep with distributor_name_transformations :=
        rep.distributor_name_transformations ++ [(py_strip original, standardized)] }
  else rep

/-- `ImportReport.record_missing_print`. -/
def record_missing_print (rep : Report) (edition : Option Str) (print_nm : Str) : Report :=
  { rep with editions_missing_print := rep.editions_missing_print ++ [(edition, print_nm)] }

/-- `ImportReport.record_missing_distributor`. -/
def record_missing_distributor (rep : Report) (edition : Option Str) : Report :=
  { rep with editions_missing_distributor :=
      rep.editions_missing_distributor ++ [edition] }

/-- `ImportReport.record_default_applied`. -/
def record_default_applied (rep : Report) (field_nm : Str) : Report :=
  { rep with defaults_applied := rep.defaults_applied ++ [field_nm] }

/-- One raw Editions-CSV row; each field is a cell (`none` = missing/NaN). -/
structure RawRow where
  record_id : Option Str
  print_record_id : Option Str
  distributor_record_id : Option Str
  print_edition : Option Str
  print_col : Option Str
  print_edition_num : Option Str
  size : Option Str
  frame : Option Str
  variation : Option Str
  printed : Option Str
  sold : Option Str
  settled : Option Str
  stock_checked : Option Str
  to_check_in_detail : Option Str
  retail_price : Option Str
  date_sold : Option Str
  commission : Option Str
  date_in_gallery : Option Str
  notes : Option Str
  payment : Option Str
  distributor : Option Str
deriving DecidableEq

/-- The dictionary returned by `clean_edition_data` (the sync timestamp,
which the importer adds later, is not data and is not modelled). -/
structure CleanedEdition where
  airtable_id : Option Str
  print_airtable_id : Option Str
  distributor_airtable_id : Option Str
  edition_display_name : Option Str
  print_name : Option Str
  edition_number : Option Int
  size : Str
  frame_type : Option Str
  variation : Option Str
  is_printed : Bool
  is_sold : Bool
  is_settled : Bool
  is_stock_checked : Bool
  to_check_in_detail : Bool
  retail_price : Option Str
  date_sold : Option PDate
  commission_percentage : Option Str
  date_in_gallery : Option PDate
  notes : Option Str
  payment_note : Option Str
  distributor_name : Option Str
deriving DecidableEq

/-- Python `a or b` on optional integers: `None` and `0` are falsy. -/
def py_or_int (a b : Option Int) : Option Int :=
  match a with
  | some n => if n ≠ 0 then some n else b
  | none => b

/-- The guard deciding whether a size default was recorded. -/
def size_missing (v : Option Str) : Bool :=
  match v with
  | none => true
  | some s => s.isEmpty ∨ py_lower s ∈ ["nan".toList, "none".toList, [], "unknown".toList]

/-- The guard deciding whether a frame default was recorded. -/
def frame_missing (v : Option Str) : Bool :=
  match v with
  | none => true
  | some s => s.isEmpty ∨ py_lower s ∈ empty_like_gp

/-- `AirtableDataCleaner.clean_edition_data`, threading the attached
report of transformations. -/
def clean_edition_data (rep : Report) (row : RawRow) : CleanedEdition × Report :=
  let pe := extract_edition_info (row.print_edition.getD [])
  let print_name := match pe.1 with
    | some p => some p
    | none => standardize_print_name row.print_col
  let normalized_size := normalize_size row.size
  let rep := record_size_normalization rep row.size normalized_size
  let rep := if size_missing row.size then record_default_applied rep "size".toList else rep
  let normalized_frame := normalize_frame_type row.frame
  let rep := record_frame_type_normalization rep row.frame
    (normalized_frame.getD "Framed".toList)
  let rep := if frame_missing row.frame then
    record_default_applied rep "frame_type".toList else rep
  let standardized_distributor := standardize_distributor_name row.distributor
  let rep := if pyTruthyOS row.distributor ∧ pyTruthyOS standardized_distributor then
    record_distributor_name_transform rep (row.distributor.getD [])
      (standardized_distributor.getD [])
    else rep
  (⟨row.record_id, row.print_record_id, row.distributor_record_id,
    row.print_edition, print_name,
    py_or_int pe.2 (clean_integer row.print_edition_num),
    normalized_size, normalized_frame,
    (match clean_text row.variation with
     | some s => if s ≠ [] then some (s.take 20) else none
     | none => none),
    clean_boolean row.printed, clean_boolean row.sold, clean_boolean row.settled,
    clean_boolean row.stock_checked, clean_boolean row.to_check_in_detail,
    clean_currency row.retail_price, parse_date row.date_sold,
    clean_percentage row.commission, parse_date row.date_in_gallery,
    clean_text row.notes, clean_text row.payment,
    standardized_distributor⟩, rep)

/-- A row as submitted to the bulk insert (`print_name`,
`distributor_name` and the raw foreign-key columns are popped; the
resolved ids are added). -/
structure InsRow where
  airtable_id : Option Str
  edition_display_name : Option Str
  edition_number : Option Int
  size : Str
  frame_type : Option Str
  variation : Option Str
  is_printed : Bool
  is_sold : Bool
  is_settled : Bool
  is_stock_checked : Bool
  to_check_in_detail : Bool
  retail_price : Option Str
  date_sold : Option PDate
  commission_percentage : Option Str
  date_in_gallery : Option PDate
  notes : Option Str
  payment_note : Option Str
  print_id : Nat
  distributor_id : Option Nat
deriving DecidableEq

def mk_ins_row (c : CleanedEdition) (pid : Nat) (did : Option Nat) : InsRow :=
  ⟨c.airtable_id, c.edition_display_name, c.edition_number, c.size, c.frame_type,
   c.variation, c.is_printed, c.is_sold, c.is_settled, c.is_stock_checked,
   c.to_check_in_detail, c.retail_price, c.date_sold, c.commission_percentage,
   c.date_in_gallery, c.notes, c.payment_note, pid, did⟩

/-- The per-row body of `SmartImporter._sync_editions_smart`: clean the row,
require an external id, resolve the print (dropping and recording the row if
unresolved), resolve the distributor (null and recorded-if-named when
unresolved), and emit the row for the bulk insert. -/
def process_edition_row (prints distributors : List (Str × Nat)) (rep : Report)
    (row : RawRow) : Option InsRow × Report :=
  let cr := clean_edition_data rep row
  let c := cr.1
  let rep1 := cr.2
  if ¬pyTruthyOS c.airtable_id then (none, rep1)
  else
    match c.print_name with
    | none => (none, rep1)
    | some pn =>
      let pid? := lookupStr pn prints
      if pyIdFalsy pid? then
        (none, record_missing_print rep1 c.edition_display_name pn)
      else
        let did? := match c.distributor_name with
          | none => none
          | some dn => lookupStr dn distributors
        let rep2 := if pyTruthyOS c.distributor_name ∧ pyIdFalsy did? then
          record_missing_distributor rep1 c.edition_display_name else rep1
        (some (mk_ins_row c (pid?.getD 0) did?), rep2)

/-- One row of the `INSERT ... ON CONFLICT (airtable_id) DO NOTHING` in
`SmartImporter._bulk_insert_editions`: a row whose external id is already
present (including one inserted earlier in the same statement) is skipped. -/
def insert_ignore (store : List InsRow) (r : InsRow) : List InsRow :=
  if store.any (fun x => x.airtable_id == r.airtable_id) then store
  else store ++ [r]

/-- `SmartImporter._bulk_insert_editions`: insert a batch, returning the new
table contents and the number of rows actually inserted. -/
def bulk_insert_editions (store : List InsRow) (batch : List InsRow) :
    List InsRow × Nat :=
  batch.foldl
    (fun p r =>
      if p.1.any (fun x => x.airtable_id == r.airtable_id) then p
      else (p.1 ++ [r], p.2 + 1))
    (store, 0)

/-- The batching loop of `_sync_editions_smart` over an already-cleaned
sequence of batches, starting from the empty table (the sync truncates the
editions table first): accumulates the `created` and `duplicates_ignored`
counters exactly as the source does. -/
def run_edition_batches (batches : List (List InsRow)) : List InsRow × Nat × Nat :=
  batches.foldl
    (fun acc b =>
      let r := bulk_insert_editions acc.1 b
      (r.1, acc.2.1 + r.2, acc.2.2 + (b.length - r.2)))
    ([], 0, 0)

/-- The columns of the `editions` table read or written by
`SmartImporter._mark_old_sales_as_settled`; `date_sold` is in days. -/
structure SettleRow where
  is_sold : Bool
  is_settled : Bool
  date_sold : Option Int
deriving DecidableEq

/-- The per-row effect of the bulk `UPDATE` in `_mark_old_sales_as_settled`. -/
def mark_old_update (today : Int) (e : SettleRow) : SettleRow :=
  if e.is_sold && !e.is_settled &&
      (match e.date_sold with
       | some d => decide (d < today - 180)
       | none => false) then
    { e with is_settled := true }
  else e

/-- `SmartImporter._mark_old_sales_as_settled` applied to the whole table,
`today` being `datetime.now().date()` at run time. -/
def mark_old_sales_as_settled (today : Int) (store : List SettleRow) :
    List SettleRow :=
  store.map (mark_old_update today)

/-! ## Concrete rows used as test inputs -/

/-- A raw edition row with every cell missing. -/
def row_blank : RawRow :=
  ⟨none, none, none, none, none, none, none, none, none, none, none, none, none,
   none, none, none, none, none, none, none, none⟩

/-- An edition row whose frame cell is present but blank. -/
def row_blank_frame : RawRow :=
  { row_blank with
    record_id := some "rec1".toList,
    print_edition := some "Quarr - 1".toList,
    frame := some [], size := some "Large".toList }

/-- An edition row whose frame cell holds an unrecognized value. -/
def row_odd_frame : RawRow :=
  { row_blank with
    record_id := some "rec1".toList,
    print_edition := some "Quarr - 1".toList,
    frame := some "perspex".toList, size := some "Large".toList }

/-- An edition row whose display field has no trailing edition number but
whose separate Print and Print Edition columns are both populated. -/
def row_no_number : RawRow :=
  { row_blank with
    record_id := some "rec1".toList,
    print_edition := some "Quarr".toList,
    print_col := some "Seaview".toList,
    print_edition_num := some "7".toList }

/-- A second display-pattern-mismatch row, used to instantiate the general
no-match theorem. -/
def row_no_number2 : RawRow :=
  { row_blank with
    record_id := some "rec2".toList,
    print_edition := some "Osborne".toList,
    print_col := some "Hurst".toList,
    print_edition_num := some "12".toList }

/-- An edition row with a well-formed display field and no distributor. -/
def row_no_dist : RawRow :=
  { row_blank with
    record_id := some "rec1".toList,
    print_edition := some "Quarr - 3".toList }

/-- The print lookup map used by the concrete resolution tests. -/
def prints_fixture : List (Str × Nat) := [("Quarr".toList, 1)]

/-! ## Theorems -/

theorem ced_airtable (rep : Report) (row : RawRow) :
    (clean_edition_data rep row).1.airtable_id = row.record_id := rfl

theorem ced_display (rep : Report) (row : RawRow) :
    (clean_edition_data rep row).1.edition_display_name = row.print_edition := rfl

theorem ced_dist_name (rep : Report) (row : RawRow) :
    (clean_edition_data rep row).1.distributor_name =
      standardize_distributor_name row.distributor := rfl

theorem ced_print_name (rep : Report) (row : RawRow) :
    (clean_edition_data rep row).1.print_name =
      (match (extract_edition_info (row.print_edition.getD [])).1 with
       | some p => some p
       | none => standardize_print_name row.print_col) := rfl

theorem ced_edition_number (rep : Report) (row : RawRow) :
    (clean_edition_data rep row).1.edition_number =
      py_or_int (extract_edition_info (row.print_edition.getD [])).2
        (clean_integer row.print_edition_num) := rfl

@[simp] theorem rsn_dc (r : Report) (o : Option Str) (n : Str) :
    (record_size_normalization r o n).date_corrections = r.date_corrections := by
  unfold record_size_normalization; split <;> rfl

@[simp] theorem rfn_dc (r : Report) (o : Option Str) (n : Str) :
    (record_frame_type_normalization r o n).date_corrections = r.date_corrections := rfl

@[simp] theorem rda_dc (r : Report) (f : Str) :
    (record_default_applied r f).date_corrections = r.date_corrections := rfl

@[simp] theorem rdt_dc (r : Report) (o n : Str) :
    (record_distributor_name_transform r o n).date_corrections = r.date_corrections := by
  unfold record_distributor_name_transform; split <;> rfl

@[simp] theorem rmp_dc (r : Report) (e : Option Str) (p : Str) :
    (record_missing_print r e p).date_corrections = r.date_corrections := rfl

@[simp] theorem rmd_dc (r : Report) (e : Option Str) :
    (record_missing_distributor r e).date_corrections = r.date_corrections := rfl

@[simp] theorem rsn_md (r : Report) (o : Option Str) (n : Str) :
    (record_size_normalization r o n).editions_missing_distributor =
      r.editions_missing_distributor := by
  unfold record_size_normalization; split <;> rfl

@[simp] theorem rfn_md (r : Report) (o : Option Str) (n : Str) :
    (record_frame_type_normalization r o n).editions_missing_distributor =
      r.editions_missing_distributor := rfl

@[simp] theorem rda_md (r : Report) (f : Str) :
    (record_default_applied r f).editions_missing_distributor =
      r.editions_missing_distributor := rfl

@[simp] theorem rdt_md (r : Report) (o n : Str) :
    (record_distributor_name_transform r o n).editions_missing_distributor =
      r.editions_missing_distributor := by
  unfold record_distributor_name_transform; split <;> rfl

/-- The report after cleaning one edition row: `date_corrections` is untouched. -/
theorem ced_dc (rep : Report) (row : RawRow) :
    ((clean_edition_data rep row).2).date_corrections = rep.date_corrections := by
  unfold clean_edition_data
  dsimp only
  split <;> split <;> split <;> simp

/-- The report after cleaning one edition row: `editions_missing_distributor`
is untouched. -/
theorem ced_md (rep : Report) (row : RawRow) :
    ((clean_edition_data rep row).2).editions_missing_distributor =
      rep.editions_missing_distributor := by
  unfold clean_edition_data
  dsimp only
  split <;> split <;> split <;> simp

/-- C9: cleaning the edition display string "NoMansFort - -5" yields the
print name "No Man's Fort" and the edition number -5; the negative trailing
integer is parsed by the split pattern and preserved. -/
theorem c9_negative_edition_number :
    extract_edition_info ("NoMansFort - -5".toList) =
      (some ("No Man\x27s Fort".toList), some (-5)) := by decide

/-- C10: for every raw edition row, the cleaned record's variation field is
either null or a string of at most 20 characters (the cleaned text is
truncated to its first 20 characters). -/
theorem c10_variation_at_most_20 (rep : Report) (row : RawRow) :
    (clean_edition_data rep row).1.variation = none ∨
    ∃ s, (clean_edition_data rep row).1.variation = some s ∧ s.length ≤ 20 := by
  have hv : (clean_edition_data rep row).1.variation =
      (match clean_text row.variation with
       | some s => if s ≠ [] then some (s.take 20) else none
       | none => none) := rfl
  rw [hv]
  cases clean_text row.variation with
  | none => exact Or.inl rfl
  | some s =>
    by_cases hs : s = []
    · simp [hs]
    · right
      refine ⟨s.take 20, by simp [hs], ?_⟩
      exact List.length_take_le 20 s

/-- C4 (divergence): a blank frame cell is stored as a null frame type (not
"Framed"), although a frame default event is logged for it; conversely an
unrecognized non-blank frame value is stored as "Framed" but no
default-applied event is logged for it. -/
theorem c4_frame_default_divergence :
    (clean_edition_data Report.empty row_blank_frame).1.frame_type = none ∧
    (clean_edition_data Report.empty row_blank_frame).2.defaults_applied =
      ["frame_type".toList] ∧
    (clean_edition_data Report.empty row_odd_frame).1.frame_type =
      some ("Framed".toList) ∧
    (clean_edition_data Report.empty row_odd_frame).2.defaults_applied = [] := by
  decide

/-- C5 (divergence): the date normalizer does parse "5/6/1920" as if it read
"5/6/2020", but no date correction is ever recorded: neither the row cleaner
nor the importer row step touches the report's date-corrections list. -/
theorem c5_date_correction_not_recorded :
    parse_date (some ("5/6/1920".toList)) = some ⟨2020, 5, 6⟩ ∧
    (∀ (rep : Report) (row : RawRow),
      ((clean_edition_data rep row).2).date_corrections = rep.date_corrections) ∧
    (∀ (prints distributors : List (Str × Nat)) (rep : Report) (row : RawRow),
      ((process_edition_row prints distributors rep row).2).date_corrections =
        rep.date_corrections) := by
  refine ⟨by decide, ced_dc, ?_⟩
  intro prints distributors rep row
  unfold process_edition_row
  dsimp only
  split
  · exact ced_dc rep row
  · split
    · exact ced_dc rep row
    · split
      · simp [ced_dc]
      · split <;> split <;> simp [ced_dc]

/-- C2: after the post-processing step, every edition that was sold, not
settled, and whose sale date is strictly more than 180 days before run time
is settled afterwards; an edition with a null sale date, or one within 180
days, keeps its prior settled flag. -/
theorem c2_old_sales_marked_settled (today d : Int) (store : List SettleRow)
    (i : Nat) (e : SettleRow) (he : store[i]? = some e) :
    ∃ e2, (mark_old_sales_as_settled today store)[i]? = some e2 ∧
      (e.is_sold = true → e.is_settled = false → e.date_sold = some d →
        d < today - 180 → e2.is_settled = true) ∧
      (e.date_sold = none → e2.is_settled = e.is_settled) ∧
      (e.date_sold = some d → ¬(d < today - 180) → e2.is_settled = e.is_settled) := by
  refine ⟨mark_old_update today e, ?_, ?_, ?_, ?_⟩
  · unfold mark_old_sales_as_settled
    rw [List.getElem?_map, he]
    rfl
  · intro h1 h2 h3 h4
    unfold mark_old_update
    rw [h1, h2, h3]
    simp [h4]
  · intro h
    unfold mark_old_update
    rw [h]
    simp
  · intro h hn
    unfold mark_old_update
    rw [h]
    simp [hn]

/-- Concrete run of the C2 theorem: a sale 181 days old is settled, a null
date and a 180-day-old sale are untouched. -/
theorem c2_old_sales_marked_settled_witness :
    ∃ e2, (mark_old_sales_as_settled 181 [(⟨true, false, some 0⟩ : SettleRow)])[0]? =
        some e2 ∧
      ((true : Bool) = true → (false : Bool) = false → (some 0 : Option Int) = some 0 →
        (0 : Int) < 181 - 180 → e2.is_settled = true) ∧
      ((some 0 : Option Int) = none → e2.is_settled = false) ∧
      ((some 0 : Option Int) = some 0 → ¬((0 : Int) < 181 - 180) →
        e2.is_settled = false) := by
  have h := c2_old_sales_marked_settled 181 0 [(⟨true, false, some 0⟩ : SettleRow)] 0
    ⟨true, false, some 0⟩ (by decide)
  exact h

/-- C3: for an edition row that passes the id and print checks, a missing or
blank distributor cell yields a null distributor id with no
missing-distributor report entry, while a cleaned distributor name that is
absent from the lookup map yields a null distributor id and appends the
row's display name to the missing-distributor list; in both cases the row is
still emitted for insertion. -/
theorem c3_distributor_null_or_reported (prints distributors : List (Str × Nat))
    (rep : Report) (row : RawRow) (pn : Str) (pid : Nat)
    (hair : pyTruthyOS row.record_id = true)
    (hpn : (clean_edition_data rep row).1.print_name = some pn)
    (hpid : lookupStr pn prints = some pid) (hpid0 : pid ≠ 0) :
    ((row.distributor = none ∨ row.distributor = some []) →
      ∃ ir, (process_edition_row prints distributors rep row).1 = some ir ∧
        ir.distributor_id = none ∧
        ((process_edition_row prints distributors rep row).2).editions_missing_distributor
          = rep.editions_missing_distributor) ∧
    (∀ dn, standardize_distributor_name row.distributor = some dn → dn ≠ [] →
      lookupStr dn distributors = none →
      ∃ ir, (process_edition_row prints distributors rep row).1 = some ir ∧
        ir.distributor_id = none ∧
        ((process_edition_row prints distributors rep row).2).editions_missing_distributor
          = rep.editions_missing_distributor ++ [row.print_edition]) := by
  have hfalsy : pyIdFalsy (some pid) = false := by
    simp [pyIdFalsy, hpid0]
  constructor
  · intro hd
    have hdn : standardize_distributor_name row.distributor = none := by
      rcases hd with h | h <;> rw [h] <;> rfl
    unfold process_edition_row
    dsimp only
    rw [ced_airtable, hair, ced_dist_name, hdn, hpn]
    simp only [not_true, if_false, ite_false]
    rw [hpid, hfalsy]
    simp only [pyTruthyOS, Bool.false_eq_true, false_and, if_false, ite_false]
    exact ⟨_, rfl, rfl, ced_md rep row⟩
  · intro dn hdn hne hlk
    have hsd : standardize_distributor_name row.distributor = some dn := hdn
    unfold process_edition_row
    dsimp only
    rw [ced_airtable, hair, ced_dist_name, hsd, hpn]
    simp only [not_true, if_false, ite_false]
    rw [hpid, hfalsy]
    simp only [hlk]
    have htr : pyTruthyOS (some dn) = true := by
      simp [pyTruthyOS, List.isEmpty_iff, hne]
    rw [htr]
    simp only [pyIdFalsy, true_and, if_true, ite_true]
    refine ⟨_, rfl, rfl, ?_⟩
    simp [record_missing_distributor, ced_md, ced_display]

/-- Concrete run of the C3 theorem on a row with no distributor cell. -/
theorem c3_distributor_null_or_reported_witness :
    ((row_no_dist.distributor = none ∨ row_no_dist.distributor = some []) →
      ∃ ir, (process_edition_row prints_fixture ([] : List (Str × Nat)) Report.empty row_no_dist).1 =
          some ir ∧
        ir.distributor_id = none ∧
        ((process_edition_row prints_fixture ([] : List (Str × Nat)) Report.empty
            row_no_dist).2).editions_missing_distributor =
          Report.empty.editions_missing_distributor) ∧
    (∀ dn, standardize_distributor_name row_no_dist.distributor = some dn → dn ≠ [] →
      lookupStr dn ([] : List (Str × Nat)) = none →
      ∃ ir, (process_edition_row prints_fixture ([] : List (Str × Nat)) Report.empty row_no_dist).1 =
          some ir ∧
        ir.distributor_id = none ∧
        ((process_edition_row prints_fixture ([] : List (Str × Nat)) Report.empty
            row_no_dist).2).editions_missing_distributor =
          Report.empty.editions_missing_distributor ++ [row_no_dist.print_edition]) :=
  c3_distributor_null_or_reported prints_fixture ([] : List (Str × Nat)) Report.empty row_no_dist
    ("Quarr".toList) 1 (by decide) (by decide) (by decide) (by decide)

/-- C8 (counterexample): for the row whose display field is "Quarr" (no
trailing number), Print column "Seaview" and Print Edition column "7", the
cleaner keeps "Quarr" (the standardized display string) as the print name —
not the Print column value — and takes edition number 7 from the Print
Edition column instead of leaving it unknown. -/
theorem c8_no_match_counterexample :
    (clean_edition_data Report.empty row_no_number).1.print_name =
      some ("Quarr".toList) ∧
    (clean_edition_data Report.empty row_no_number).1.print_name ≠
      some ("Seaview".toList) ∧
    (clean_edition_data Report.empty row_no_number).1.edition_number = some 7 := by
  decide

/-- C8 (amended): when the display field does not match the trailing
"-<integer>" pattern, the print name is the standardized whole display
string, falling back to the separate Print column only when that yields
nothing, and the edition number is integer-parsed from the separate
Print Edition column. -/
theorem c8_no_match_fallback (rep : Report) (row : RawRow)
    (h : match_edition_pattern (py_strip (row.print_edition.getD [])) = none) :
    (clean_edition_data rep row).1.print_name =
      (match standardize_print_name (some (row.print_edition.getD [])) with
       | some p => some p
       | none => standardize_print_name row.print_col) ∧
    (clean_edition_data rep row).1.edition_number =
      clean_integer row.print_edition_num := by
  have he : extract_edition_info (row.print_edition.getD []) =
      (standardize_print_name (some (row.print_edition.getD [])), none) := by
    unfold extract_edition_info
    by_cases hemp : (row.print_edition.getD []).isEmpty = true
    · rw [if_pos hemp]
      have : standardize_print_name (some (row.print_edition.getD [])) = none := by
        unfold standardize_print_name get_print_names
        dsimp only
        rw [if_pos (Or.inl hemp)]
      rw [this]
    · rw [if_neg hemp, h]
  constructor
  · rw [ced_print_name, he]
  · rw [ced_edition_number, he]
    rfl

/-- Concrete run of the C8 no-match theorem. -/
theorem c8_no_match_fallback_witness :
    (clean_edition_data Report.empty row_no_number2).1.print_name =
      (match standardize_print_name (some (row_no_number2.print_edition.getD [])) with
       | some p => some p
       | none => standardize_print_name row_no_number2.print_col) ∧
    (clean_edition_data Report.empty row_no_number2).1.edition_number =
      clean_integer row_no_number2.print_edition_num :=
  c8_no_match_fallback Report.empty row_no_number2 (by decide)

/-- Every full name stored in the canonical table is a valid canonicalizer
input (non-empty and not a placeholder string). -/
theorem print_names_fulls_valid :
    ∀ e ∈ PRINT_NAMES, ¬(e.2.2.isEmpty = true ∨ py_lower e.2.2 ∈ empty_like_gp) := by
  decide

/-- C6 (counterexample): canonicalizing "bemlbsl" gives short name "Bemb LS",
but canonicalizing its full name "Bembridge Lifeboat Station" (whose lookup
key is absent from the table) gives short name "BLS" via the fallback — so
re-canonicalizing the full name does not reproduce the pair. -/
theorem c6_idempotence_counterexample :
    get_print_names (some ("bemlbsl".toList)) =
      (some ("Bemb LS".toList), some ("Bembridge Lifeboat Station".toList)) ∧
    get_print_names (some ("Bembridge Lifeboat Station".toList)) ≠
      get_print_names (some ("bemlbsl".toList)) := by
  decide

/-- C6 (amended): canonicalization is idempotent on every input whose
canonical full name re-normalizes to a lookup key that the table maps back
to the same (short, full) pair. -/
theorem c6_idempotent_on_table_roundtrip (x : Option Str) (s f : Str)
    (h1 : get_print_names x = (some s, some f))
    (h2 : lookup_print (normalize_lookup_key (py_strip f)) = some (s, f)) :
    get_print_names (some f) = get_print_names x := by
  rw [h1]
  have hmem : ∃ e ∈ PRINT_NAMES, e.2 = (s, f) := by
    unfold lookup_print lookupStr at h2
    obtain ⟨e, hfind, he2⟩ := Option.map_eq_some'.mp h2
    exact ⟨e, List.mem_of_find?_eq_some hfind, he2⟩
  have hguard : ¬((f.isEmpty = true) ∨ py_lower f ∈ empty_like_gp) := by
    obtain ⟨e, hmem', he2⟩ := hmem
    have hv := print_names_fulls_valid e hmem'
    have hf : e.2.2 = f := by rw [he2]
    rwa [hf] at hv
  unfold get_print_names
  dsimp only
  rw [if_neg hguard, h2]

/-- Concrete run of the amended C6 theorem on "RYS". -/
theorem c6_idempotent_on_table_roundtrip_witness :
    get_print_names (some ("Royal Yacht Squadron".toList)) =
      get_print_names (some ("RYS".toList)) :=
  c6_idempotent_on_table_roundtrip (some ("RYS".toList)) ("RYS".toList)
    ("Royal Yacht Squadron".toList) (by decide) (by decide)

theorem py_capitalize_ne_nil (s : Str) (h : s ≠ []) : py_capitalize s ≠ [] := by
  cases s with
  | nil => exact absurd rfl h
  | cons c r => simp [py_capitalize]

theorem py_split_on_ne_nil (sep : Char) (s : Str) : py_split_on sep s ≠ [] := by
  induction s with
  | nil => simp [py_split_on]
  | cons c r ih =>
    unfold py_split_on at ih ⊢
    rw [List.foldr_cons]
    split
    · simp
    · split <;> simp

theorem py_split_on_two_of_mem (sep : Char) (s : Str) (h : sep ∈ s) :
    2 ≤ (py_split_on sep s).length := by
  induction s with
  | nil => simp at h
  | cons c r ih =>
    unfold py_split_on at ih ⊢
    rw [List.foldr_cons]
    by_cases hc : c = sep
    · rw [if_pos hc]
      have := py_split_on_ne_nil sep r
      unfold py_split_on at this
      cases hh : List.foldr _ [[]] r with
      | nil => exact absurd hh this
      | cons a t => simp [List.length_cons]
    · rw [if_neg hc]
      have hm : sep ∈ r := by
        rcases List.mem_cons.mp h with h1 | h1
        · exact absurd h1.symm hc
        · exact h1
      have h2 := ih hm
      cases hh : List.foldr _ [[]] r with
      | nil => exact absurd hh (by
          have := py_split_on_ne_nil sep r
          unfold py_split_on at this
          exact this)
      | cons a t =>
        rw [hh] at h2
        simpa using h2

theorem py_join_char_ne_nil_of_two (sep : Char) (l : List Str) (h : 2 ≤ l.length) :
    py_join_char sep l ≠ [] := by
  match l with
  | [] => simp at h
  | [w] => simp at h
  | w :: v :: r => simp [py_join_char]

theorem py_join_char_ne_nil_of_mem (sep : Char) (l : List Str) (w : Str)
    (hw : w ∈ l) (hne : w ≠ []) : py_join_char sep l ≠ [] := by
  match l with
  | [] => simp at hw
  | [v] =>
    rw [List.mem_singleton] at hw
    subst hw
    simpa [py_join_char] using hne
  | v :: u :: r => simp [py_join_char]

theorem title_word_ne_nil (first : Bool) (w : Str) (h : strip_punct w ≠ []) :
    title_word first w ≠ [] := by
  unfold title_word
  dsimp only
  split
  · intro hc
    have := congrArg List.length hc
    simp [py_upper] at this
    exact h this
  · split
    · intro hc
      have := congrArg List.length hc
      simp [py_lower] at this
      exact h this
    · split
      · rename_i hmem
        by_cases h2 : 2 ≤ (py_split_on '\x27' (strip_punct w)).length
        · apply py_join_char_ne_nil_of_two
          simpa using h2
        · have hlen : (py_split_on '\x27' (strip_punct w)).length = 1 := by
            have hpos : 0 < (py_split_on '\x27' (strip_punct w)).length :=
              List.length_pos.mpr (py_split_on_ne_nil _ _)
            omega
          have := py_split_on_two_of_mem '\x27' (strip_punct w) hmem
          omega
      · exact py_capitalize_ne_nil _ h

theorem title_words_ex_ne_nil (ws : List Str) (first : Bool)
    (h : ∃ w ∈ ws, strip_punct w ≠ []) :
    ∃ o ∈ title_words first ws, o ≠ [] := by
  induction ws generalizing first with
  | nil => simp at h
  | cons w r ih =>
    obtain ⟨v, hv, hne⟩ := h
    rcases List.mem_cons.mp hv with h1 | h1
    · subst h1
      exact ⟨title_word first v, List.mem_cons_self _ _, title_word_ne_nil first v hne⟩
    · obtain ⟨o, ho, hone⟩ := ih false ⟨v, h1, hne⟩
      exact ⟨o, List.mem_cons_of_mem _ ho, hone⟩

theorem apply_title_casing_ne_nil (t : Str)
    (h : ∃ w ∈ py_split_ws t, strip_punct w ≠ []) :
    apply_title_casing t ≠ [] := by
  unfold apply_title_casing py_join_sp
  obtain ⟨o, ho, hone⟩ := title_words_ex_ne_nil (py_split_ws t) true h
  exact py_join_char_ne_nil_of_mem ' ' _ o ho hone

/-- Every full name in the canonical table is non-empty. -/
theorem print_names_fulls_ne_nil : ∀ e ∈ PRINT_NAMES, e.2.2 ≠ [] := by decide

/-- C7 (counterexample): the single-space string is a non-empty input for
which the canonicalizer produces no full name at all. -/
theorem c7_whitespace_counterexample :
    (" ".toList ≠ []) ∧ get_print_names (some (" ".toList)) = (none, none) := by
  decide

/-- C7 (amended): every input that is not a placeholder ("nan"/"none"/empty)
and contains at least one word with a character outside the stripped
punctuation set produces some non-empty canonical full name — the table is
an override layer, never a gate. -/
theorem c7_total_full_name (s : Str)
    (h1 : ¬(s.isEmpty = true ∨ py_lower s ∈ empty_like_gp))
    (h2 : ∃ w ∈ py_split_ws (py_strip s), strip_punct w ≠ []) :
    ∃ f, (get_print_names (some s)).2 = some f ∧ f ≠ [] := by
  unfold get_print_names
  dsimp only
  rw [if_neg h1]
  cases hl : lookup_print (normalize_lookup_key (py_strip s)) with
  | some p =>
    refine ⟨p.2, rfl, ?_⟩
    obtain ⟨e, hfind, he2⟩ := Option.map_eq_some'.mp hl
    have := print_names_fulls_ne_nil e (List.mem_of_find?_eq_some hfind)
    rw [he2] at this
    exact this
  | none =>
    have hfull := apply_title_casing_ne_nil (py_strip s) h2
    rw [if_neg (by simpa [List.isEmpty_iff] using hfull)]
    dsimp only
    split
    · exact ⟨apply_title_casing (py_strip s), rfl, hfull⟩
    · exact ⟨apply_title_casing (py_strip s), rfl, hfull⟩

/-- Concrete run of the amended C7 theorem on a name absent from the table. -/
theorem c7_total_full_name_witness :
    ∃ f, (get_print_names (some ("brambles cottage".toList))).2 = some f ∧ f ≠ [] :=
  c7_total_full_name ("brambles cottage".toList) (by decide)
    ⟨"brambles".toList, by decide, by decide⟩

theorem foldl_ins_len_lb (b : List InsRow) (st : List InsRow) :
    st.length ≤ (b.foldl insert_ignore st).length := by
  induction b generalizing st with
  | nil => simp
  | cons r t ih =>
    rw [List.foldl_cons]
    refine le_trans ?_ (ih (insert_ignore st r))
    unfold insert_ignore
    split
    · exact le_refl _
    · simp

theorem foldl_ins_len_ub (b : List InsRow) (st : List InsRow) :
    (b.foldl insert_ignore st).length ≤ st.length + b.length := by
  induction b generalizing st with
  | nil => simp
  | cons r t ih =>
    rw [List.foldl_cons]
    refine le_trans (ih (insert_ignore st r)) ?_
    have : (insert_ignore st r).length ≤ st.length + 1 := by
      unfold insert_ignore
      split
      · simp
      · simp
    simp only [List.length_cons]
    omega

theorem bulk_insert_go (b : List InsRow) (st : List InsRow) (n : Nat) :
    b.foldl
      (fun p r =>
        if p.1.any (fun x => x.airtable_id == r.airtable_id) then p
        else (p.1 ++ [r], p.2 + 1))
      (st, n) =
    (b.foldl insert_ignore st,
     n + ((b.foldl insert_ignore st).length - st.length)) := by
  induction b generalizing st n with
  | nil => simp
  | cons r t ih =>
    rw [List.foldl_cons, List.foldl_cons]
    by_cases hc : st.any (fun x => x.airtable_id == r.airtable_id) = true
    · rw [if_pos hc]
      have hins : insert_ignore st r = st := by
        unfold insert_ignore
        rw [if_pos hc]
      rw [ih st n, hins]
    · rw [if_neg hc]
      have hins : insert_ignore st r = st ++ [r] := by
        unfold insert_ignore
        rw [if_neg hc]
      rw [ih (st ++ [r]) (n + 1), hins]
      have hlb := foldl_ins_len_lb t (st ++ [r])
      simp only [List.length_append, List.length_singleton] at hlb ⊢
      simp only [Prod.mk.injEq, true_and]
      omega

theorem bulk_insert_spec (st : List InsRow) (b : List InsRow) :
    bulk_insert_editions st b =
      (b.foldl insert_ignore st,
       (b.foldl insert_ignore st).length - st.length) := by
  unfold bulk_insert_editions
  rw [bulk_insert_go b st 0, Nat.zero_add]

theorem foldl_ins_nodup (b : List InsRow) (st : List InsRow)
    (h : (st.map (fun r => r.airtable_id)).Nodup) :
    ((b.foldl insert_ignore st).map (fun r => r.airtable_id)).Nodup := by
  induction b generalizing st with
  | nil => exact h
  | cons r t ih =>
    rw [List.foldl_cons]
    apply ih
    unfold insert_ignore
    by_cases hc : st.any (fun x => x.airtable_id == r.airtable_id) = true
    · rw [if_pos hc]
      exact h
    · rw [if_neg hc]
      rw [List.map_append, List.nodup_append]
      refine ⟨h, by simp, ?_⟩
      intro a ha hb
      simp only [List.map_cons, List.map_nil, List.mem_singleton] at hb
      subst hb
      obtain ⟨x, hx, hxa⟩ := List.mem_map.mp ha
      apply hc
      rw [List.any_eq_true]
      exact ⟨x, hx, by simp [hxa]⟩

theorem foldl_ins_find (b : List InsRow) (st : List InsRow) (a : Option Str) :
    (b.foldl insert_ignore st).find? (fun r => r.airtable_id == a) =
      ((st.find? (fun r => r.airtable_id == a)).or
        (b.find? (fun r => r.airtable_id == a))) := by
  induction b generalizing st with
  | nil => simp
  | cons r t ih =>
    rw [List.foldl_cons, ih]
    by_cases hp : (r.airtable_id == a) = true
    · have haeq : r.airtable_id = a := by simpa using hp
      have hrt : List.find? (fun r0 => r0.airtable_id == a) (r :: t) = some r := by
        rw [List.find?_cons, hp]
      rw [hrt]
      by_cases hc : st.any (fun x => x.airtable_id == r.airtable_id) = true
      · have hsome : (st.find? (fun r0 => r0.airtable_id == a)).isSome := by
          rw [List.find?_isSome]
          rw [List.any_eq_true] at hc
          obtain ⟨x, hx, hxe⟩ := hc
          refine ⟨x, hx, ?_⟩
          simp only [beq_iff_eq] at hxe ⊢
          rw [hxe, haeq]
        obtain ⟨x, hx⟩ := Option.isSome_iff_exists.mp hsome
        have hins : insert_ignore st r = st := by
          unfold insert_ignore
          rw [if_pos hc]
        rw [hins, hx]
        rfl
      · have hins : insert_ignore st r = st ++ [r] := by
          unfold insert_ignore
          rw [if_neg hc]
        have hstn : st.find? (fun r0 => r0.airtable_id == a) = none := by
          rw [List.find?_eq_none]
          intro x hx hpx
          apply hc
          rw [List.any_eq_true]
          refine ⟨x, hx, ?_⟩
          simp only [beq_iff_eq] at hpx ⊢
          rw [hpx, haeq]
        have h1 : List.find? (fun r0 => r0.airtable_id == a) [r] = some r := by
          rw [List.find?_cons, hp]
        rw [hins, List.find?_append, hstn, h1]
        rfl
    · have hpf : (r.airtable_id == a) = false := by
        simpa using hp
      have hrt : List.find? (fun r0 => r0.airtable_id == a) (r :: t) =
          List.find? (fun r0 => r0.airtable_id == a) t := by
        rw [List.find?_cons, hpf]
      rw [hrt]
      have hfi : List.find? (fun r0 => r0.airtable_id == a) (insert_ignore st r) =
          List.find? (fun r0 => r0.airtable_id == a) st := by
        unfold insert_ignore
        split
        · rfl
        · have hr1 : List.find? (fun r0 => r0.airtable_id == a) [r] = none := by
            rw [List.find?_cons, hpf]
            rfl
          rw [List.find?_append, hr1, Option.or_none]
      rw [hfi]

theorem run_batches_go (batches : List (List InsRow)) (st : List InsRow) (c i : Nat) :
    (batches.foldl
      (fun acc b =>
        let r := bulk_insert_editions acc.1 b
        (r.1, acc.2.1 + r.2, acc.2.2 + (b.length - r.2)))
      (st, c, i)).1 = (batches.flatten).foldl insert_ignore st ∧
    (batches.foldl
      (fun acc b =>
        let r := bulk_insert_editions acc.1 b
        (r.1, acc.2.1 + r.2, acc.2.2 + (b.length - r.2)))
      (st, c, i)).2.1 + st.length =
      c + ((batches.flatten).foldl insert_ignore st).length ∧
    (batches.foldl
      (fun acc b =>
        let r := bulk_insert_editions acc.1 b
        (r.1, acc.2.1 + r.2, acc.2.2 + (b.length - r.2)))
      (st, c, i)).2.1 +
      (batches.foldl
        (fun acc b =>
          let r := bulk_insert_editions acc.1 b
          (r.1, acc.2.1 + r.2, acc.2.2 + (b.length - r.2)))
        (st, c, i)).2.2 =
      c + i + (batches.map List.length).sum := by
  induction batches generalizing st c i with
  | nil => simp
  | cons b t ih =>
    rw [List.foldl_cons]
    dsimp only
    rw [bulk_insert_spec st b]
    dsimp only
    have hlb := foldl_ins_len_lb b st
    have hub := foldl_ins_len_ub b st
    obtain ⟨ih1, ih2, ih3⟩ := ih (b.foldl insert_ignore st)
      (c + ((b.foldl insert_ignore st).length - st.length))
      (i + (b.length - ((b.foldl insert_ignore st).length - st.length)))
    dsimp only at ih1 ih2 ih3
    refine ⟨?_, ?_, ?_⟩
    · rw [ih1, List.flatten_cons, List.foldl_append]
    · rw [List.flatten_cons, List.foldl_append]
      omega
    · simp only [List.map_cons, List.sum_cons]
      omega

/-- C1: starting from a truncated editions table, any sequence of batches
run through the insert-or-ignore bulk step leaves at most one row per
external id, the first submitted row for each id wins across the whole
run (even with duplicates inside one batch), and the created plus
ignored-duplicate counters account for every submitted row. -/
theorem c1_insert_ignore_unique_first_wins (batches : List (List InsRow)) :
    ((run_edition_batches batches).1.map (fun r => r.airtable_id)).Nodup ∧
    (∀ a, (run_edition_batches batches).1.find? (fun r => r.airtable_id == a) =
      batches.flatten.find? (fun r => r.airtable_id == a)) ∧
    (run_edition_batches batches).2.1 = (run_edition_batches batches).1.length ∧
    (run_edition_batches batches).2.1 + (run_edition_batches batches).2.2 =
      (batches.map List.length).sum := by
  have hrun : run_edition_batches batches =
      batches.foldl
        (fun acc b =>
          let r := bulk_insert_editions acc.1 b
          (r.1, acc.2.1 + r.2, acc.2.2 + (b.length - r.2)))
        ([], 0, 0) := rfl
  obtain ⟨h1, h2, h3⟩ := run_batches_go batches [] 0 0
  refine ⟨?_, ?_, ?_, ?_⟩
  · rw [hrun, h1]
    exact foldl_ins_nodup _ _ (by simp)
  · intro a
    rw [hrun, h1, foldl_ins_find]
    simp
  · rw [hrun, h1]
    simpa using h2
  · rw [hrun]
    simpa using h3
